import Mathlib

/-!
Shallow embedding of `pgdatadiff/pgdatadiff.py` (the comparison engine of the
pgdatadiff tool) and verification of the frozen claims about it.

Modelling conventions:
* SQL cell values are modelled as integers; a table row is its primary-key
  tuple together with the remaining payload values.
* The `md5(array_agg(md5((t.*)::varchar))::varchar)` page digest is modelled
  as an injective digest of the page (the page itself), `none` when the page
  is empty (in PostgreSQL `array_agg` over zero rows is NULL, and `md5(NULL)`
  is NULL).  Hash collisions are not modelled.
* Python exceptions are the `PyExc` inductive; a raising computation returns
  `Except PyExc`.
* The module under embedding imports only `NoSuchTableError`,
  `ProgrammingError` and `OperationalError` from `sqlalchemy.exc`; the name
  `DatabaseError` used inside `retry` is bound nowhere (not imported, not
  defined, not a Python builtin), so evaluating `isinstance(ex, DatabaseError)`
  raises `NameError`.
* The textual rendering of the Python `offsets` dict inside mismatch messages
  is abstracted to the rendering of the offsets list; no claim depends on it.
-/

deriving instance DecidableEq for Except

/-- Python exceptions that can arise in the embedded code. -/
inductive PyExc where
  | noSuchTableError
  | programmingError
  | operationalError
  | nameError (missingName : String)
  deriving DecidableEq, Repr

/-- Outcome of one call to `retry`: the returned value or the propagated
exception, the number of invocations of the wrapped operation, and the list of
back-off sleeps (in seconds) performed, in order. -/
structure RetryOutcome (α : Type) where
  result : Except PyExc α
  calls : Nat
  sleeps : List Nat
  deriving Repr

/-- `max_tries = 3` in `retry`. -/
def max_tries : Nat := 3

/-- `base_timeout = 1` in `retry`. -/
def base_timeout : Nat := 1

/-- `isinstance(ex, DatabaseError)` in `retry`: the name `DatabaseError` is not
bound anywhere in the module (it is not among the `sqlalchemy.exc` imports on
line 9 of the source, is not defined in the module, and is not a Python
builtin), so evaluating the expression raises `NameError` before any
classification can happen. -/
def isinstanceDatabaseError (_ex : PyExc) : Except PyExc Bool :=
  Except.error (PyExc.nameError "DatabaseError")

/-- `isinstance(ex, OperationalError)`: `OperationalError` is imported, so this
is an honest class test. -/
def isinstanceOperationalError (ex : PyExc) : Bool :=
  ex matches PyExc.operationalError

/-- The `while True` loop of `retry`.  `fn` models the zero-argument thunk,
indexed by the number of invocations made so far (so that operations whose
outcome varies between invocations are expressible); `i` is the loop counter
of the source.  Each non-returning iteration increments `i` and is guarded by
`i < max_tries`, which bounds the recursion. -/
def retryGo (fn : Nat → Except PyExc α) (i calls : Nat) (sleeps : List Nat) :
    RetryOutcome α :=
  match fn calls with
  | Except.ok a => ⟨Except.ok a, calls + 1, sleeps⟩
  | Except.error ex =>
    match isinstanceDatabaseError ex with
    | Except.error e =>
      -- evaluating the classification itself raised (NameError); that
      -- exception propagates out of the except-block
      ⟨Except.error e, calls + 1, sleeps⟩
    | Except.ok isDb =>
      if !isDb && !(isinstanceOperationalError ex) then
        ⟨Except.error ex, calls + 1, sleeps⟩
      else if h : i < max_tries then
        retryGo fn (i + 1) (calls + 1)
          (sleeps ++ [2 ^ i * base_timeout])
      else
        ⟨Except.error ex, calls + 1, sleeps⟩
termination_by max_tries - i
decreasing_by simp_wf; omega

/-- `retry(fn)` from the source: loop counter starts at 0. -/
def retry (fn : Nat → Except PyExc α) : RetryOutcome α :=
  retryGo fn 0 0 []

/-- One table row: its primary-key tuple (aligned with the table's list of
primary-key column names) and the remaining column values.  The page hash is
computed over the full row, ordering and filtering use the key. -/
structure Row where
  key : List Int
  payload : List Int
  deriving DecidableEq, Repr

/-- One table: the primary-key column names reported by the catalog
(`get_pk_constraint(...)['constrained_columns']`) and the stored rows. -/
structure PgTable where
  pks : List String
  rows : List Row
  deriving DecidableEq, Repr

/-- One database (its `public` schema): named tables. -/
structure Db where
  tables : List (String × PgTable)
  deriving DecidableEq, Repr

/-- One database's sequences: name to current `last_value`. -/
structure SeqDb where
  seqs : List (String × Int)
  deriving DecidableEq, Repr

/-- Catalog state relevant to `create_aggregate_functions`: whether the
function `public.last_agg` and the aggregate `public.last` exist. -/
structure Catalog where
  lastAggFn : Bool
  lastAgg : Bool
  deriving DecidableEq, Repr

/-- The `DBDiff` object: the two databases and the two configuration fields. -/
structure DBDiff where
  firstdb : Db
  seconddb : Db
  chunk_size : Nat
  count_only : Bool
  deriving Repr

/-- SQL `v >= :bound` under three-valued logic, reduced to "the predicate is
true": comparison with a NULL bound is unknown, hence not true. -/
def sqlGe (v : Int) (bound : Option Int) : Bool :=
  match bound with
  | some w => decide (w ≤ v)
  | none => false

/-- The WHERE clause of the paging query,
`NOT :has_offset OR (pk1 >= :pk1 AND pk2 >= :pk2 AND ...)`:
a row is selected when the clause is true. -/
def rowPasses (hasOffset : Bool) (cursor : List (Option Int)) (r : Row) : Bool :=
  !hasOffset || (r.key.zip cursor).all fun p => sqlGe p.1 p.2

/-- Lexicographic comparison of key tuples, the order of
`ORDER BY pk1, pk2, ...`. -/
def keyLe : List Int → List Int → Bool
  | [], _ => true
  | _ :: _, [] => false
  | a :: as, b :: bs => if a < b then true else if b < a then false else keyLe as bs

/-- Insert into a le-sorted list (insertion sort step). -/
def insertLe (le : α → α → Bool) (x : α) : List α → List α
  | [] => [x]
  | y :: ys => if le x y then x :: y :: ys else y :: insertLe le x ys

/-- Insertion sort by a boolean comparison. -/
def sortBy (le : α → α → Bool) : List α → List α
  | [] => []
  | x :: xs => insertLe le x (sortBy le xs)

/-- The subquery of the paging SQL:
`SELECT * FROM tbl WHERE NOT :has_offset OR (...) ORDER BY pks LIMIT chunk`. -/
def pageQuery (tbl : PgTable) (chunk : Nat) (hasOffset : Bool)
    (cursor : List (Option Int)) : List Row :=
  (sortBy (fun r s => keyLe r.key s.key)
    (tbl.rows.filter (rowPasses hasOffset cursor))).take chunk

/-- `md5(array_agg(md5((t.*)::varchar))::varchar)` over the page, modelled as
an injective digest: NULL (`none`) for an empty page (`array_agg` over zero
rows is NULL), otherwise determined exactly by the page contents. -/
def pageHash (page : List Row) : Option (List Row) :=
  if page.isEmpty then none else some page

/-- `last(pk1), last(pk2), ...` over the page: the key values of the final row
in page order, or NULLs when the page is empty. -/
def lastKeys (npks : Nat) (page : List Row) : List (Option Int) :=
  match page.getLast? with
  | none => List.replicate npks none
  | some r => r.key.map some

/-- The single result row of the aggregate paging query: the driver rowcount
(an aggregate SELECT without GROUP BY always returns exactly one row), the
page hash and the `last(pk)` values. -/
structure HashRow where
  rowcount : Nat
  hash : Option (List Row)
  lastpks : List (Option Int)
  deriving DecidableEq, Repr

/-- Executing `SQL_TEMPLATE_HASH` against one database: an undefined table
raises `ProgrammingError` (PostgreSQL undefined_table); otherwise the single
aggregate result row is returned. -/
def executeHashQuery (db : Db) (tablename : String) (npks chunk : Nat)
    (hasOffset : Bool) (cursor : List (Option Int)) : Except PyExc HashRow :=
  match db.tables.lookup tablename with
  | none => Except.error PyExc.programmingError
  | some tbl =>
    let page := pageQuery tbl chunk hasOffset cursor
    Except.ok ⟨1, pageHash page, lastKeys npks page⟩

/-- Result of `diff_table_data`: the verdict (`some true`/`some false`/`none`
for the Python `True`/`False`/`None`) with its message, or the propagated
exception; `Except.ok none` means the b fuel for the paging loop was exhausted
with the loop still running (the loop has no exit of its own).
`pagingQueries` counts the invocations of the paging query. -/
structure TableDiffOutcome where
  result : Except PyExc (Option (Option Bool × String))
  pagingQueries : Nat
  deriving DecidableEq, Repr

/-- The `while not done` loop of `diff_table_data`.  `done` is initialised to
`False` by the caller and - exactly as in the source - no branch of the body
ever changes it, so the `return True, "data is identical."` after the loop is
reachable only if `done` were true on entry.  `fuel` bounds the number of
iterations we are willing to unfold; it is not part of the source. -/
def hashLoop (d : DBDiff) (tablename : String) (pks : List String) :
    Nat → Bool → Nat → List (Option Int) → Nat → TableDiffOutcome
  | 0, _done, _position, _offsets, acc => ⟨Except.ok none, acc⟩
  | fuel + 1, done, position, offsets, acc =>
    if done then ⟨Except.ok (some (some true, "data is identical.")), acc⟩
    else
      match retry (fun _ => executeHashQuery d.firstdb tablename pks.length
          d.chunk_size (decide (position > 0)) offsets) with
      | ⟨Except.error e, calls1, _⟩ => ⟨Except.error e, acc + calls1⟩
      | ⟨Except.ok first, calls1, _⟩ =>
        match retry (fun _ => executeHashQuery d.seconddb tablename pks.length
            d.chunk_size (decide (position > 0)) offsets) with
        | ⟨Except.error e, calls2, _⟩ => ⟨Except.error e, acc + calls1 + calls2⟩
        | ⟨Except.ok second, calls2, _⟩ =>
          if first.rowcount ≠ second.rowcount then
            ⟨Except.ok (some (some false,
              s!"row count mismatch at row {position}; offsets: {offsets}")),
              acc + calls1 + calls2⟩
          else if first.hash ≠ second.hash then
            ⟨Except.ok (some (some false,
              s!"data hash are different at row {position}; offsets: {offsets}")),
              acc + calls1 + calls2⟩
          else if first.lastpks ≠ second.lastpks then
            ⟨Except.ok (some (some false,
              s!"data pks are different  at row {position};offsets: {offsets}")),
              acc + calls1 + calls2⟩
          else
            hashLoop d tablename pks fuel done (position + d.chunk_size)
              first.lastpks (acc + calls1 + calls2)

/-- `diff_table_data(tablename)`.  In count-only mode the two autoloads (which
raise `NoSuchTableError` for a missing table, caught by the
`except NoSuchTableError` attached to that `try` block) are followed by the
count comparison.  In the default hash mode the `try` block is skipped
entirely: the primary-key lookup `get_pk_constraint` raises `NoSuchTableError`
for a table missing on the first database OUTSIDE any handler, then the no-pk
check and the paging loop follow. -/
def diff_table_data (d : DBDiff) (tablename : String) (fuel : Nat) :
    TableDiffOutcome :=
  if d.count_only then
    match d.firstdb.tables.lookup tablename with
    | none => ⟨Except.ok (some (some false, "table is missing")), 0⟩
    | some t1 =>
      match d.seconddb.tables.lookup tablename with
      | none => ⟨Except.ok (some (some false, "table is missing")), 0⟩
      | some t2 =>
        let c1 := t1.rows.length
        let c2 := t2.rows.length
        if c1 ≠ c2 then
          ⟨Except.ok (some (some false, s!"counts are different {c1} != {c2}")), 0⟩
        else if c1 = 0 then
          ⟨Except.ok (some (none, "tables are empty")), 0⟩
        else
          ⟨Except.ok (some (some true, "Counts are the same")), 0⟩
  else
    match d.firstdb.tables.lookup tablename with
    | none => ⟨Except.error PyExc.noSuchTableError, 0⟩
    | some t1 =>
      let pks := t1.pks
      if pks.isEmpty then
        ⟨Except.ok (some (none,
          "no primary key(s) on this table. Comparison is not possible.")), 0⟩
      else
        hashLoop d tablename pks fuel false 0 (pks.map fun _ => none) 0

/-- Formal statement that `diff_table_data` does not terminate on the given
input: however much fuel the paging loop is given, it is still running
(no verdict, no exception). -/
def neverReturnsVerdict (d : DBDiff) (t : String) : Prop :=
  ∀ fuel : Nat, (diff_table_data d t fuel).result = Except.ok none

/-- `SELECT last_value FROM {seq_name}` against one database: a missing
relation raises `ProgrammingError` (PostgreSQL undefined_table). -/
def getSeqValue (db : SeqDb) (name : String) : Except PyExc Int :=
  match db.seqs.lookup name with
  | some v => Except.ok v
  | none => Except.error PyExc.programmingError

/-- Result of `diff_sequence`: the verdict with its message (or the propagated
exception) together with whether `rollback()` was invoked on each session. -/
structure SeqDiffOutcome where
  result : Except PyExc (Option Bool × String)
  rolledBackFirst : Bool
  rolledBackSecond : Bool
  deriving DecidableEq, Repr

/-- `diff_sequence(seq_name)`.  Both fetches go through `retry`; the
surrounding `try` catches only `ProgrammingError` (rolling back both sessions
and returning the missing-sequence Mismatch), every other exception
propagates.  Note that `retry` can never actually deliver `ProgrammingError`:
its handler raises `NameError` first (see `isinstanceDatabaseError`), so the
`except ProgrammingError` arm is dead in the composed code. -/
def diff_sequence (db1 db2 : SeqDb) (seq_name : String) : SeqDiffOutcome :=
  match (retry fun _ => getSeqValue db1 seq_name).result with
  | Except.error e =>
    if e = PyExc.programmingError then
      ⟨Except.ok (some false, "sequence doesnt exist in second database."),
        true, true⟩
    else ⟨Except.error e, false, false⟩
  | Except.ok firstvalue =>
    match (retry fun _ => getSeqValue db2 seq_name).result with
    | Except.error e =>
      if e = PyExc.programmingError then
        ⟨Except.ok (some false, "sequence doesnt exist in second database."),
          true, true⟩
      else ⟨Except.error e, false, false⟩
    | Except.ok secondvalue =>
      if firstvalue < secondvalue then
        ⟨Except.ok (none,
          s!"first sequence is less than the second({firstvalue} vs {secondvalue})."),
          false, false⟩
      else if firstvalue > secondvalue then
        ⟨Except.ok (some false,
          s!"first sequence is greater than the second({firstvalue} vs {secondvalue})."),
          false, false⟩
      else
        ⟨Except.ok (some true, s!"sequences are identical- ({firstvalue})."),
          false, false⟩

/-- Code-point lexicographic comparison of character lists: the order Python
`sorted` applies to strings. -/
def charListLe : List Char → List Char → Bool
  | [], _ => true
  | _ :: _, [] => false
  | a :: as, b :: bs =>
    if a.val < b.val then true
    else if b.val < a.val then false
    else charListLe as bs

/-- `sorted(...)` over names, by the string order. -/
def sortStrings (names : List String) : List String :=
  sortBy (fun a b => charListLe a.data b.data) names

/-- `get_all_sequences`: the sequence names of the FIRST database. -/
def get_all_sequences (db : SeqDb) : List String :=
  db.seqs.map Prod.fst

/-- The per-sequence loop of `diff_all_sequences`: `failures` counts verdicts
that are identically `False`; the verdicts produced so far are recorded.  An
exception from `diff_sequence` aborts the run (no exit code). -/
def diffSeqsGo (db1 db2 : SeqDb) :
    List String → Nat → List (Option Bool) → Except PyExc Nat × List (Option Bool)
  | [], failures, acc => (Except.ok (if failures > 0 then 1 else 0), acc)
  | s :: rest, failures, acc =>
    match (diff_sequence db1 db2 s).result with
    | Except.error e => (Except.error e, acc)
    | Except.ok (r, _m) =>
      diffSeqsGo db1 db2 rest
        (if r = some false then failures + 1 else failures) (acc ++ [r])

/-- `diff_all_sequences()`: sequences listed on the first database, sorted;
returns the exit code (1 when any failures, else 0) and, for verification, the
verdicts in order. -/
def diff_all_sequences (db1 db2 : SeqDb) :
    Except PyExc Nat × List (Option Bool) :=
  diffSeqsGo db1 db2 (sortStrings (get_all_sequences db1)) 0 []

/-- Executing the two-statement script of `create_aggregate_functions` against
one database: `CREATE OR REPLACE FUNCTION public.last_agg ...` replaces or
creates the function (idempotent), but the following
`CREATE AGGREGATE public.last (...)` is a plain CREATE: when the aggregate
already exists PostgreSQL raises a duplicate-function error
(a `ProgrammingError`), aborting the transaction, so no catalog change
survives. -/
def execCreateAggScript (c : Catalog) : Except PyExc Catalog :=
  let c1 : Catalog := { c with lastAggFn := true }
  if c1.lastAgg then Except.error PyExc.programmingError
  else Except.ok { c1 with lastAgg := true }

/-- `create_aggregate_functions()`: run the script on the first session, then
on the second, then commit both.  Nothing catches an error, so a failure on
either side propagates. -/
def create_aggregate_functions (c1 c2 : Catalog) :
    Except PyExc (Catalog × Catalog) :=
  match execCreateAggScript c1 with
  | Except.error e => Except.error e
  | Except.ok c1' =>
    match execCreateAggScript c2 with
    | Except.error e => Except.error e
    | Except.ok c2' => Except.ok (c1', c2')

/-- Table names of one database (`get_table_names(schema="public")` against
the first inspector). -/
def get_table_names (db : Db) : List String :=
  db.tables.map Prod.fst

/-- The per-table loop of `diff_all_table_data`: `failures` counts verdicts
that are identically `False`.  A table diff that exhausts its fuel
(`Except.ok none`, i.e. a paging loop still running) makes the whole run
return no exit code; an exception aborts the run. -/
def diffTablesGo (d : DBDiff) (fuel : Nat) :
    List String → Nat → List (Option Bool) →
      Except PyExc (Option Nat) × List (Option Bool)
  | [], failures, acc =>
    (Except.ok (some (if failures > 0 then 1 else 0)), acc)
  | t :: rest, failures, acc =>
    match (diff_table_data d t fuel).result with
    | Except.error e => (Except.error e, acc)
    | Except.ok none => (Except.ok none, acc)
    | Except.ok (some (r, _m)) =>
      diffTablesGo d fuel rest
        (if r = some false then failures + 1 else failures) (acc ++ [r])

/-- `diff_all_table_data()`: first `create_aggregate_functions` (whose failure
propagates), then the sorted tables of the first database are diffed in turn;
returns the exit code (1 when any failures, else 0) and, for verification, the
verdicts in order. -/
def diff_all_table_data (d : DBDiff) (c1 c2 : Catalog) (fuel : Nat) :
    Except PyExc (Option Nat) × List (Option Bool) :=
  match create_aggregate_functions c1 c2 with
  | Except.error e => (Except.error e, [])
  | Except.ok _ => diffTablesGo d fuel (sortStrings (get_table_names d.firstdb)) 0 []

/-- Row with key 1 of the three-row example table. -/
def exRow1 : Row := ⟨[1], [10]⟩

/-- Row with key 2 of the three-row example table. -/
def exRow2 : Row := ⟨[2], [20]⟩

/-- Row with key 3 of the three-row example table. -/
def exRow3 : Row := ⟨[3], [30]⟩

/-- Example table with single-column primary key `id` and three rows. -/
def exTable3 : PgTable := ⟨["id"], [exRow1, exRow2, exRow3]⟩

/-- Example table with primary key `id` and no rows. -/
def emptyTable : PgTable := ⟨["id"], []⟩

/-- Database holding only the empty table `t`. -/
def emptyDb : Db := ⟨[("t", emptyTable)]⟩

/-- Hash-mode diff of two identical databases each holding the empty table
`t`, with the default chunk size. -/
def dEmptyHash : DBDiff := ⟨emptyDb, emptyDb, 100000, false⟩

/-- Hash-mode diff of two empty databases (table `t` exists on neither). -/
def dMissingHash : DBDiff := ⟨⟨[]⟩, ⟨[]⟩, 100000, false⟩

/-- Count-only diff of two empty databases. -/
def dMissingCount : DBDiff := ⟨⟨[]⟩, ⟨[]⟩, 100000, true⟩

/-- Table without primary-key columns holding one row. -/
def noPkTable : PgTable := ⟨[], [⟨[], [1, 10]⟩]⟩

/-- Count-only diff of two identical databases holding the one-row table `t`
that has no primary-key columns. -/
def dNoPkCount : DBDiff := ⟨⟨[("t", noPkTable)]⟩, ⟨[("t", noPkTable)]⟩, 100000, true⟩

/-- Hash-mode variant of `dNoPkCount`. -/
def dNoPkHash : DBDiff := ⟨⟨[("t", noPkTable)]⟩, ⟨[("t", noPkTable)]⟩, 100000, false⟩

/-- Source sequences: `orders_id_seq` at value 500. -/
def seqDbSource : SeqDb := ⟨[("orders_id_seq", 500)]⟩

/-- Target sequences: none. -/
def seqDbNone : SeqDb := ⟨[]⟩

/-- Sequences of the first database of the orchestration example. -/
def seqDbA : SeqDb := ⟨[("alpha", 1), ("beta", 2)]⟩

/-- Sequences of the second database of the orchestration example: `alpha`
agrees, `beta` is ahead of the source. -/
def seqDbB : SeqDb := ⟨[("alpha", 1), ("beta", 3)]⟩

/-- Catalog on which neither `public.last_agg` nor `public.last` exists. -/
def freshCatalog : Catalog := ⟨false, false⟩

/-- Catalog on which both `public.last_agg` and `public.last` exist (the state
left behind by a successful `create_aggregate_functions`). -/
def fullCatalog : Catalog := ⟨true, true⟩

/-- First database of the count-only orchestration example. -/
def ordersDbA : Db :=
  ⟨[("orders", ⟨["id"], [⟨[1], [7]⟩]⟩), ("users", ⟨["id"], [⟨[1], [8]⟩]⟩)]⟩

/-- Second database of the count-only orchestration example: `orders` agrees,
`users` has a different row count. -/
def ordersDbB : Db :=
  ⟨[("orders", ⟨["id"], [⟨[1], [7]⟩]⟩), ("users", ⟨["id"], [⟨[1], [8]⟩, ⟨[2], [9]⟩]⟩)]⟩

/-- Count-only orchestration example with one matching and one mismatching
table. -/
def dOrchCount : DBDiff := ⟨ordersDbA, ordersDbB, 100000, true⟩

/-- Count-only diff of two identical databases each holding the empty table
`t`. -/
def dEmptyCount : DBDiff := ⟨emptyDb, emptyDb, 100000, true⟩

/-- Count-only diff where `t` exists (empty) on the first database only. -/
def dMissingSecondCount : DBDiff := ⟨⟨[("t", emptyTable)]⟩, ⟨[]⟩, 100000, true⟩

/-- Hash-mode diff where `t` exists (with rows and pk `id`) on the first
database only. -/
def dMissingSecondHash : DBDiff := ⟨⟨[("t", exTable3)]⟩, ⟨[]⟩, 100000, false⟩

/-- Concrete sequence value for the C5 witness. -/
def wVal : Int := 5

/-- Sequence database holding `s` at value `wVal`, for the C5 witness. -/
def seqDbW : SeqDb := ⟨[("s", wVal)]⟩

/-- A successful first invocation returns the value of the wrapped operation
after exactly one call and no sleeping. -/
theorem retry_ok (fn : Nat → Except PyExc α) (a : α) (h : fn 0 = Except.ok a) :
    retry fn = ⟨Except.ok a, 1, []⟩ := by
  unfold retry retryGo
  rw [h]

/-- Any exception raised on the first invocation is transmuted into
`NameError` by the unbound name `DatabaseError` in the handler: one call, no
sleeps, no retries. -/
theorem retry_error (fn : Nat → Except PyExc α) (e : PyExc)
    (h : fn 0 = Except.error e) :
    retry fn = ⟨Except.error (PyExc.nameError "DatabaseError"), 1, []⟩ := by
  unfold retry retryGo
  rw [h]
  rfl

/-- Membership is preserved by the insertion-sort step. -/
theorem mem_insertLe (le : α → α → Bool) (x a : α) (l : List α) :
    a ∈ insertLe le x l ↔ a = x ∨ a ∈ l := by
  induction l with
  | nil => simp [insertLe]
  | cons y ys ih =>
    by_cases h : le x y = true
    · simp [insertLe, h]
    · simp only [insertLe, h, Bool.false_eq_true, if_false, List.mem_cons, ih]
      tauto

/-- Membership is preserved by the insertion sort. -/
theorem mem_sortBy (le : α → α → Bool) (a : α) (l : List α) :
    a ∈ sortBy le l ↔ a ∈ l := by
  induction l with
  | nil => simp [sortBy]
  | cons x xs ih => simp [sortBy, mem_insertLe, ih]

/-- The paging query against the empty table returns the single aggregate row
with NULL hash and NULL `last(id)`, whatever the offset state. -/
theorem executeHash_empty (b : Bool) :
    executeHashQuery emptyDb "t" 1 100000 b [none] = Except.ok ⟨1, none, [none]⟩ :=
  rfl

/-- The retried paging query against the empty table succeeds on its first
invocation. -/
theorem retryHash_empty (b : Bool) :
    retry (fun _ => executeHashQuery emptyDb "t" 1 100000 b [none]) =
      ⟨Except.ok ⟨1, none, [none]⟩, 1, []⟩ :=
  retry_ok _ _ (executeHash_empty b)

/-- On the identical empty table each round of the paging loop compares two
equal NULL results, resets the cursor to NULL and recurses: no amount of fuel
makes the loop return, and every round issues two paging queries. -/
theorem hashLoop_empty (fuel position acc : Nat) :
    hashLoop dEmptyHash "t" ["id"] fuel false position [none] acc =
      ⟨Except.ok none, acc + 2 * fuel⟩ := by
  induction fuel generalizing position acc with
  | zero => simp [hashLoop]
  | succ n ih =>
    rw [hashLoop]
    simp only [dEmptyHash, List.length_cons, List.length_nil, if_false,
      Bool.false_eq_true]
    rw [retryHash_empty]
    simp only [ne_eq, not_true_eq_false, if_false, ite_false]
    refine (ih (position + 100000) (acc + 1 + 1)).trans ?_
    have h2 : acc + 1 + 1 + 2 * n = acc + 2 * (n + 1) := by omega
    rw [h2]

/-- C1: refuted as stated; the code is the defect.  On two identical databases
holding the same empty table (N = 0 rows, primary key `id`), default hash
mode, `diff_table_data` never terminates: the loop flag `done` is never set by
any branch, the aggregate paging query always returns exactly one row (so the
claimed zero-row sentinel can never fire), and each round compares two equal
results and loops.  After any number `fuel` of rounds the loop is still
running (verdict `none`) having issued `2 * fuel` paging queries instead of
the claimed `ceil(N/C) + 1 = 1` rounds, and the Match verdict
"data is identical." is unreachable. -/
theorem C1_hash_diff_identical_empty_table_never_returns (fuel : Nat) :
    diff_table_data dEmptyHash "t" fuel = ⟨Except.ok none, 2 * fuel⟩ := by
  have h := hashLoop_empty fuel 0 0
  rw [Nat.zero_add] at h
  exact h

/-- C2: refuted as stated; the code is the defect.  For an operation that
raises a transient `OperationalError` on every invocation, `retry` invokes it
exactly once, performs no back-off sleeps, and propagates `NameError` (from
the unbound name `DatabaseError` in its handler) instead of the transient
error - not the claimed 4 invocations with sleeps 1s, 2s, 4s. -/
theorem C2_retry_raises_nameerror_on_first_transient_failure :
    retry (fun _ => (Except.error PyExc.operationalError : Except PyExc Int)) =
      ⟨Except.error (PyExc.nameError "DatabaseError"), 1, []⟩ :=
  retry_error _ PyExc.operationalError rfl

/-- C6 counterexample: in default hash mode, on two identical databases
holding the same empty table, `diff_table_data` never returns any verdict at
all (the paging loop never terminates), in particular not the claimed
Inconclusive verdict. -/
theorem C6_counterexample_hash_mode_empty_table_no_verdict :
    neverReturnsVerdict dEmptyHash "t" := by
  intro fuel
  have h0 := hashLoop_empty fuel 0 0
  rw [Nat.zero_add] at h0
  have h1 : diff_table_data dEmptyHash "t" fuel = ⟨Except.ok none, 2 * fuel⟩ := h0
  rw [h1]

/-- C7 counterexample: in default hash mode, for a table existing on neither
database, `diff_table_data` propagates `NoSuchTableError` from the
primary-key catalog lookup (which sits outside the `try` block) instead of
returning the Mismatch verdict "table is missing". -/
theorem C7_counterexample_hash_mode_missing_table_propagates :
    diff_table_data dMissingHash "t" 1 =
      ⟨Except.error PyExc.noSuchTableError, 0⟩ :=
  rfl

/-- C8 counterexample: in count-only mode a table with zero primary-key
columns and one identical row on both sides returns the Match verdict
"Counts are the same" - the no-primary-key check is never reached, so the
claimed Inconclusive verdict is not produced in this mode. -/
theorem C8_counterexample_count_only_ignores_missing_pk :
    diff_table_data dNoPkCount "t" 1 =
      ⟨Except.ok (some (some true, "Counts are the same")), 0⟩ :=
  rfl

/-- C9: refuted as stated; the code is the defect.  With `orders_id_seq` at
value 500 on the source and absent on the target, the target lookup raises
`ProgrammingError`, but `retry` transmutes it into `NameError` (unbound name
`DatabaseError`), which the `except ProgrammingError` arm of `diff_sequence`
does not catch: the exception propagates, no rollback is issued on either
session, and no Mismatch verdict is returned. -/
theorem C9_missing_sequence_on_target_raises_nameerror :
    diff_sequence seqDbSource seqDbNone "orders_id_seq" =
      ⟨Except.error (PyExc.nameError "DatabaseError"), false, false⟩ := by
  have h1 : retry (fun _ => getSeqValue seqDbSource "orders_id_seq") =
      ⟨Except.ok 500, 1, []⟩ := retry_ok _ _ rfl
  have h2 : retry (fun _ => getSeqValue seqDbNone "orders_id_seq") =
      ⟨Except.error (PyExc.nameError "DatabaseError"), 1, []⟩ :=
    retry_error _ PyExc.programmingError rfl
  simp [diff_sequence, h1, h2]

/-- C10 counterexample: the first run of `create_aggregate_functions` against
two fresh catalogs succeeds and installs the aggregate on both; a second run
against the resulting catalogs raises `ProgrammingError` (duplicate object
from the plain `CREATE AGGREGATE public.last`), so the second execution is
not a successful no-op. -/
theorem C10_counterexample_second_create_aggregate_fails :
    create_aggregate_functions freshCatalog freshCatalog =
        Except.ok (fullCatalog, fullCatalog) ∧
      create_aggregate_functions fullCatalog fullCatalog =
        Except.error PyExc.programmingError :=
  ⟨rfl, rfl⟩

/-- C3 counterexample: with table `exTable3` (keys 1, 2, 3) and chunk size 2,
the first page selects rows 1 and 2 and hands cursor `[some 2]` to the next
round; the second page, issued with that cursor, selects rows 2 and 3 again -
the cursor row `exRow2`, already selected in the first page, is re-selected,
because the offset predicate is `id >= :id`, not strictly greater. -/
theorem C3_counterexample_cursor_row_reselected :
    pageQuery exTable3 2 false [none] = [exRow1, exRow2] ∧
      lastKeys 1 (pageQuery exTable3 2 false [none]) = [some 2] ∧
      pageQuery exTable3 2 true [some 2] = [exRow2, exRow3] ∧
      exRow2 ∈ pageQuery exTable3 2 false [none] ∧
      exRow2 ∈ pageQuery exTable3 2 true [some 2] := by
  refine ⟨rfl, rfl, rfl, ?_, ?_⟩ <;> decide

/-- C3 amended: every paging round after the first deterministically selects
at most `chunk_size` rows whose primary-key values are componentwise greater
than OR EQUAL to the cursor (the SQL predicate is `pk >= :pk` per column), so
the cursor row itself can be (and, for a single-column key, is) selected again
by the next page. -/
theorem C3_page_query_selects_ge_cursor (tbl : PgTable) (chunk : Nat)
    (cursor : List (Option Int)) (r : Row)
    (h : r ∈ pageQuery tbl chunk true cursor) :
    (pageQuery tbl chunk true cursor).length ≤ chunk ∧
      ∀ p ∈ r.key.zip cursor, ∀ w : Int, p.2 = some w → w ≤ p.1 := by
  constructor
  · exact List.length_take_le _ _
  · have h1 : r ∈ sortBy (fun r s => keyLe r.key s.key)
        (tbl.rows.filter (rowPasses true cursor)) := List.mem_of_mem_take h
    rw [mem_sortBy] at h1
    have h3 : ((r.key.zip cursor).all fun p => sqlGe p.1 p.2) = true := by
      have h2 := (List.mem_filter.mp h1).2
      simpa [rowPasses] using h2
    intro p hp w hw
    have h4 := List.all_eq_true.mp h3 p hp
    rw [hw] at h4
    simpa [sqlGe] using h4

/-- Witness for C3: the amended theorem applied to `exRow2` in the second page
of the concrete run. -/
theorem C3_page_query_selects_ge_cursor_witness :
    exRow2 ∈ pageQuery exTable3 2 true [some 2] ∧
      ((pageQuery exTable3 2 true [some 2]).length ≤ 2 ∧
        ∀ p ∈ exRow2.key.zip [some 2], ∀ w : Int, p.2 = some w → w ≤ p.1) :=
  ⟨by decide, C3_page_query_selects_ge_cursor exTable3 2 [some 2] exRow2 (by decide)⟩

/-- C5: when a sequence exists on both databases with source value `a` and
target value `b`, `diff_sequence` returns Match iff `a = b`, Inconclusive iff
`a < b`, Mismatch iff `a > b`, each with the corresponding message, and rolls
nothing back. -/
theorem C5_diff_sequence_trichotomy (db1 db2 : SeqDb) (name : String) (a b : Int)
    (h1 : db1.seqs.lookup name = some a) (h2 : db2.seqs.lookup name = some b) :
    ∃ r m, diff_sequence db1 db2 name = ⟨Except.ok (r, m), false, false⟩ ∧
      ((r = some true) ↔ a = b) ∧ ((r = none) ↔ a < b) ∧
      ((r = some false) ↔ a > b) ∧
      (a < b → m = s!"first sequence is less than the second({a} vs {b}).") ∧
      (a > b → m = s!"first sequence is greater than the second({a} vs {b}).") ∧
      (a = b → m = s!"sequences are identical- ({a}).") := by
  have g1 : getSeqValue db1 name = Except.ok a := by simp [getSeqValue, h1]
  have g2 : getSeqValue db2 name = Except.ok b := by simp [getSeqValue, h2]
  have r1 := retry_ok (fun _ => getSeqValue db1 name) a g1
  have r2 := retry_ok (fun _ => getSeqValue db2 name) b g2
  rcases lt_trichotomy a b with hlt | heq | hgt
  · refine ⟨none, s!"first sequence is less than the second({a} vs {b}).",
      ?_, ?_, ?_, ?_, ?_, ?_, ?_⟩
    · simp [diff_sequence, r1, r2, hlt]
    · simp; omega
    · simpa using hlt
    · simp; omega
    · intro _; rfl
    · intro hc; omega
    · intro hc; omega
  · subst heq
    refine ⟨some true, s!"sequences are identical- ({a}).",
      ?_, ?_, ?_, ?_, ?_, ?_, ?_⟩
    · simp [diff_sequence, r1, r2]
    · simp
    · simp
    · simp
    · intro hc; omega
    · intro hc; omega
    · intro _; rfl
  · refine ⟨some false, s!"first sequence is greater than the second({a} vs {b}).",
      ?_, ?_, ?_, ?_, ?_, ?_, ?_⟩
    · simp [diff_sequence, r1, r2, hgt, not_lt_of_gt hgt]
    · simp; omega
    · simp; omega
    · simpa using hgt
    · intro hc; omega
    · intro _; rfl
    · intro hc; omega

/-- Witness for C5: equal sequence values 5 and 5 on both sides. -/
theorem C5_diff_sequence_trichotomy_witness :
    ∃ r m, diff_sequence seqDbW seqDbW "s" = ⟨Except.ok (r, m), false, false⟩ ∧
      ((r = some true) ↔ wVal = wVal) ∧ ((r = none) ↔ wVal < wVal) ∧
      ((r = some false) ↔ wVal > wVal) ∧
      (wVal < wVal →
        m = s!"first sequence is less than the second({wVal} vs {wVal}).") ∧
      (wVal > wVal →
        m = s!"first sequence is greater than the second({wVal} vs {wVal}).") ∧
      (wVal = wVal → m = s!"sequences are identical- ({wVal}).") :=
  C5_diff_sequence_trichotomy seqDbW seqDbW "s" wVal wVal rfl rfl

/-- C6 amended: a table with 0 rows on both sides returns Inconclusive
("tables are empty") in count-only mode, without any paging query; in default
hash mode the paging loop never terminates on such a table, so no verdict at
all (in particular never Match) is produced there (see the counterexample). -/
theorem C6_count_only_empty_tables_inconclusive (d : DBDiff) (t : String)
    (t1 t2 : PgTable) (fuel : Nat)
    (hmode : d.count_only = true)
    (h1 : d.firstdb.tables.lookup t = some t1)
    (h2 : d.seconddb.tables.lookup t = some t2)
    (e1 : t1.rows = []) (e2 : t2.rows = []) :
    diff_table_data d t fuel = ⟨Except.ok (some (none, "tables are empty")), 0⟩ := by
  simp [diff_table_data, hmode, h1, h2, e1, e2]

/-- Witness for C6: the identical empty table in count-only mode. -/
theorem C6_count_only_empty_tables_witness :
    diff_table_data dEmptyCount "t" 1 =
      ⟨Except.ok (some (none, "tables are empty")), 0⟩ :=
  C6_count_only_empty_tables_inconclusive dEmptyCount "t" emptyTable emptyTable 1
    rfl rfl rfl rfl rfl

/-- In default hash mode, when the table exists on the first database but not
on the second, the very first paging round's query against the second
database raises `ProgrammingError`, which `retry` transmutes into `NameError`
(unbound name `DatabaseError`); the exception propagates out of the loop. -/
theorem hashLoop_second_missing (d : DBDiff) (t : String) (pks : List String)
    (fuel position acc : Nat) (offsets : List (Option Int)) (t1 : PgTable)
    (h1 : d.firstdb.tables.lookup t = some t1)
    (h2 : d.seconddb.tables.lookup t = none) :
    (hashLoop d t pks (fuel + 1) false position offsets acc).result =
      Except.error (PyExc.nameError "DatabaseError") := by
  have q1 : executeHashQuery d.firstdb t pks.length d.chunk_size
      (decide (position > 0)) offsets =
      Except.ok ⟨1,
        pageHash (pageQuery t1 d.chunk_size (decide (position > 0)) offsets),
        lastKeys pks.length
          (pageQuery t1 d.chunk_size (decide (position > 0)) offsets)⟩ := by
    simp [executeHashQuery, h1]
  have q2 : executeHashQuery d.seconddb t pks.length d.chunk_size
      (decide (position > 0)) offsets = Except.error PyExc.programmingError := by
    simp [executeHashQuery, h2]
  have r1 := retry_ok (fun _ => executeHashQuery d.firstdb t pks.length
    d.chunk_size (decide (position > 0)) offsets) _ q1
  have r2 := retry_error (fun _ => executeHashQuery d.seconddb t pks.length
    d.chunk_size (decide (position > 0)) offsets) _ q2
  rw [hashLoop]
  simp only [Bool.false_eq_true, if_false, r1, r2]

/-- C7 amended: in count-only mode a table missing on either database yields
the Mismatch verdict "table is missing" (the `NoSuchTableError` from the
autoload is caught there); in default hash mode the catalog error is NOT
caught: a table missing on the first database propagates `NoSuchTableError`
from the primary-key lookup, and a table missing only on the second database
propagates the `NameError` produced by `retry` around the failing page
query. -/
theorem C7_missing_table_verdicts :
    (∀ (d : DBDiff) (t : String) (fuel : Nat), d.count_only = true →
        d.firstdb.tables.lookup t = none →
        diff_table_data d t fuel =
          ⟨Except.ok (some (some false, "table is missing")), 0⟩) ∧
      (∀ (d : DBDiff) (t : String) (fuel : Nat) (t1 : PgTable),
        d.count_only = true →
        d.firstdb.tables.lookup t = some t1 →
        d.seconddb.tables.lookup t = none →
        diff_table_data d t fuel =
          ⟨Except.ok (some (some false, "table is missing")), 0⟩) ∧
      (∀ (d : DBDiff) (t : String) (fuel : Nat), d.count_only = false →
        d.firstdb.tables.lookup t = none →
        diff_table_data d t fuel = ⟨Except.error PyExc.noSuchTableError, 0⟩) ∧
      (∀ (d : DBDiff) (t : String) (fuel : Nat) (t1 : PgTable),
        d.count_only = false →
        d.firstdb.tables.lookup t = some t1 → t1.pks ≠ [] →
        d.seconddb.tables.lookup t = none →
        (diff_table_data d t (fuel + 1)).result =
          Except.error (PyExc.nameError "DatabaseError")) := by
  refine ⟨?_, ?_, ?_, ?_⟩
  · intro d t fuel hmode h1
    simp [diff_table_data, hmode, h1]
  · intro d t fuel t1 hmode h1 h2
    simp [diff_table_data, hmode, h1, h2]
  · intro d t fuel hmode h1
    simp [diff_table_data, hmode, h1]
  · intro d t fuel t1 hmode h1 hpks h2
    have he : t1.pks.isEmpty = false := by
      cases hp : t1.pks with
      | nil => exact absurd hp hpks
      | cons a l => rfl
    have key := hashLoop_second_missing d t t1.pks fuel 0 0
      (t1.pks.map fun _ => none) t1 h1 h2
    simp only [diff_table_data, hmode, Bool.false_eq_true, if_false, h1, he]
    exact key

/-- Witness for C7: the four cases at concrete databases. -/
theorem C7_missing_table_verdicts_witness :
    diff_table_data dMissingCount "t" 1 =
        ⟨Except.ok (some (some false, "table is missing")), 0⟩ ∧
      diff_table_data dMissingSecondCount "t" 1 =
        ⟨Except.ok (some (some false, "table is missing")), 0⟩ ∧
      diff_table_data dMissingHash "t" 1 =
        ⟨Except.error PyExc.noSuchTableError, 0⟩ ∧
      (diff_table_data dMissingSecondHash "t" (0 + 1)).result =
        Except.error (PyExc.nameError "DatabaseError") :=
  ⟨C7_missing_table_verdicts.1 dMissingCount "t" 1 rfl rfl,
    C7_missing_table_verdicts.2.1 dMissingSecondCount "t" 1 emptyTable rfl rfl rfl,
    C7_missing_table_verdicts.2.2.1 dMissingHash "t" 1 rfl rfl,
    C7_missing_table_verdicts.2.2.2 dMissingSecondHash "t" 0 exTable3 rfl rfl
      (by decide) rfl⟩

/-- C8 amended: in default hash mode a table with zero primary-key columns
returns Inconclusive with the no-primary-key message and issues no paging
query; in count-only mode the primary-key check is never reached (the verdict
is the count comparison, see the counterexample), but no paging query is
issued there either. -/
theorem C8_no_pk_policy :
    (∀ (d : DBDiff) (t : String) (t1 : PgTable) (fuel : Nat),
        d.count_only = false → d.firstdb.tables.lookup t = some t1 →
        t1.pks = [] →
        diff_table_data d t fuel =
          ⟨Except.ok (some (none,
            "no primary key(s) on this table. Comparison is not possible.")), 0⟩) ∧
      (∀ (d : DBDiff) (t : String) (fuel : Nat), d.count_only = true →
        (diff_table_data d t fuel).pagingQueries = 0) := by
  constructor
  · intro d t t1 fuel hmode h1 hpks
    simp [diff_table_data, hmode, h1, hpks]
  · intro d t fuel hmode
    simp only [diff_table_data, hmode, if_true]
    split
    · rfl
    · split
      · rfl
      · split
        · rfl
        · split
          · rfl
          · rfl

/-- Witness for C8: the no-primary-key table in hash mode and in count-only
mode. -/
theorem C8_no_pk_policy_witness :
    diff_table_data dNoPkHash "t" 1 =
        ⟨Except.ok (some (none,
          "no primary key(s) on this table. Comparison is not possible.")), 0⟩ ∧
      (diff_table_data dNoPkCount "t" 1).pagingQueries = 0 :=
  ⟨C8_no_pk_policy.1 dNoPkHash "t" noPkTable 1 rfl rfl rfl,
    C8_no_pk_policy.2 dNoPkCount "t" 1 rfl⟩

/-- C10 amended: `create_aggregate_functions` is not idempotent.  The
`CREATE OR REPLACE FUNCTION public.last_agg` half of the script is
idempotent, but `CREATE AGGREGATE public.last` is a plain CREATE: against any
catalog on which the aggregate already exists the script raises
`ProgrammingError`, which nothing catches, so a second
`diff_all_table_data` run against the same pair of databases aborts before
diffing any table. -/
theorem C10_create_aggregate_not_idempotent (c1 c2 : Catalog)
    (h : c1.lastAgg = true) :
    create_aggregate_functions c1 c2 = Except.error PyExc.programmingError ∧
      ∀ (d : DBDiff) (fuel : Nat),
        diff_all_table_data d c1 c2 fuel =
          (Except.error PyExc.programmingError, []) := by
  have hs : execCreateAggScript c1 = Except.error PyExc.programmingError := by
    simp [execCreateAggScript, h]
  constructor
  · simp [create_aggregate_functions, hs]
  · intro d fuel
    simp [diff_all_table_data, create_aggregate_functions, hs]

/-- Witness for C10: the catalogs left behind by a successful first run. -/
theorem C10_create_aggregate_not_idempotent_witness :
    create_aggregate_functions fullCatalog fullCatalog =
        Except.error PyExc.programmingError ∧
      diff_all_table_data dOrchCount fullCatalog fullCatalog 1 =
        (Except.error PyExc.programmingError, []) :=
  ⟨(C10_create_aggregate_not_idempotent fullCatalog fullCatalog rfl).1,
    (C10_create_aggregate_not_idempotent fullCatalog fullCatalog rfl).2
      dOrchCount 1⟩

/-- Invariant of the per-sequence tally loop: on a completed run the exit
code is 1 exactly when failures were carried in or a Mismatch verdict was
produced, else 0. -/
theorem diffSeqsGo_code (db1 db2 : SeqDb) :
    ∀ (names : List String) (failures : Nat) (acc : List (Option Bool))
      (code : Nat) (verdicts : List (Option Bool)),
      diffSeqsGo db1 db2 names failures acc = (Except.ok code, verdicts) →
      ∃ nv, verdicts = acc ++ nv ∧
        code = if 0 < failures ∨ some false ∈ nv then 1 else 0 := by
  intro names
  induction names with
  | nil =>
    intro failures acc code verdicts h
    rw [diffSeqsGo] at h
    simp only [Prod.mk.injEq, Except.ok.injEq] at h
    refine ⟨[], by simp [h.2.symm], ?_⟩
    simp only [List.not_mem_nil, or_false]
    exact h.1.symm
  | cons s rest ih =>
    intro failures acc code verdicts h
    rw [diffSeqsGo] at h
    rcases hres : (diff_sequence db1 db2 s).result with e | rm
    · rw [hres] at h
      simp at h
    · rcases rm with ⟨r, m⟩
      rw [hres] at h
      obtain ⟨nv, hv, hc⟩ := ih _ _ _ _ h
      refine ⟨r :: nv, by simp [hv], ?_⟩
      have hiff : (0 < (if r = some false then failures + 1 else failures) ∨
          some false ∈ nv) ↔ (0 < failures ∨ some false ∈ r :: nv) := by
        by_cases hr : r = some false <;> simp [hr, eq_comm]
      rw [hc]
      simp only [hiff]

/-- Invariant of the per-table tally loop, as for the sequences. -/
theorem diffTablesGo_code (d : DBDiff) (fuel : Nat) :
    ∀ (names : List String) (failures : Nat) (acc : List (Option Bool))
      (code : Nat) (verdicts : List (Option Bool)),
      diffTablesGo d fuel names failures acc = (Except.ok (some code), verdicts) →
      ∃ nv, verdicts = acc ++ nv ∧
        code = if 0 < failures ∨ some false ∈ nv then 1 else 0 := by
  intro names
  induction names with
  | nil =>
    intro failures acc code verdicts h
    rw [diffTablesGo] at h
    simp only [Prod.mk.injEq, Except.ok.injEq, Option.some.injEq] at h
    refine ⟨[], by simp [h.2.symm], ?_⟩
    simp only [List.not_mem_nil, or_false]
    exact h.1.symm
  | cons t rest ih =>
    intro failures acc code verdicts h
    rw [diffTablesGo] at h
    rcases hres : (diff_table_data d t fuel).result with e | ov
    · rw [hres] at h
      simp at h
    · rcases ov with _ | rm
      · rw [hres] at h
        simp at h
      · rcases rm with ⟨r, m⟩
        rw [hres] at h
        obtain ⟨nv, hv, hc⟩ := ih _ _ _ _ h
        refine ⟨r :: nv, by simp [hv], ?_⟩
        have hiff : (0 < (if r = some false then failures + 1 else failures) ∨
            some false ∈ nv) ↔ (0 < failures ∨ some false ∈ r :: nv) := by
          by_cases hr : r = some false <;> simp [hr, eq_comm]
        rw [hc]
        simp only [hiff]

/-- C4: a completed `diff_all_sequences` run returns 1 iff some sequence
produced the Mismatch (`False`) verdict and 0 otherwise, and a completed
`diff_all_table_data` run returns 1 iff some table produced the Mismatch
verdict and 0 otherwise; Match (`True`) and Inconclusive (`None`) verdicts
never count as failures. -/
theorem C4_exit_codes_from_mismatch_count :
    (∀ (db1 db2 : SeqDb) (code : Nat) (verdicts : List (Option Bool)),
        diff_all_sequences db1 db2 = (Except.ok code, verdicts) →
        ((code = 1 ↔ some false ∈ verdicts) ∧
          (code = 0 ↔ some false ∉ verdicts))) ∧
      (∀ (d : DBDiff) (c1 c2 : Catalog) (fuel code : Nat)
          (verdicts : List (Option Bool)),
        diff_all_table_data d c1 c2 fuel = (Except.ok (some code), verdicts) →
        ((code = 1 ↔ some false ∈ verdicts) ∧
          (code = 0 ↔ some false ∉ verdicts))) := by
  constructor
  · intro db1 db2 code verdicts h
    obtain ⟨nv, hv, hc⟩ := diffSeqsGo_code db1 db2 _ 0 [] code verdicts h
    simp only [List.nil_append] at hv
    rw [hv]
    by_cases hm : some false ∈ nv
    · simp [hm] at hc
      subst hc
      simp [hm]
    · simp [hm] at hc
      subst hc
      simp [hm]
  · intro d c1 c2 fuel code verdicts h
    rw [diff_all_table_data] at h
    rcases hca : create_aggregate_functions c1 c2 with e | pr
    · rw [hca] at h
      simp at h
    · rw [hca] at h
      obtain ⟨nv, hv, hc⟩ := diffTablesGo_code d fuel _ 0 [] code verdicts h
      simp only [List.nil_append] at hv
      rw [hv]
      by_cases hm : some false ∈ nv
      · simp [hm] at hc
        subst hc
        simp [hm]
      · simp [hm] at hc
        subst hc
        simp [hm]

/-- Sequence `alpha` agrees on both sides of the orchestration example. -/
theorem diff_sequence_alpha :
    diff_sequence seqDbA seqDbB "alpha" =
      ⟨Except.ok (some true, "sequences are identical- (1)."), false, false⟩ := by
  have r1 := retry_ok (fun _ => getSeqValue seqDbA "alpha") 1 rfl
  have r2 := retry_ok (fun _ => getSeqValue seqDbB "alpha") 1 rfl
  simp [diff_sequence, r1, r2]
  rfl

/-- Sequence `beta` trails the target in the orchestration example:
Inconclusive. -/
theorem diff_sequence_beta :
    diff_sequence seqDbA seqDbB "beta" =
      ⟨Except.ok (none, "first sequence is less than the second(2 vs 3)."),
        false, false⟩ := by
  have r1 := retry_ok (fun _ => getSeqValue seqDbA "beta") 2 rfl
  have r2 := retry_ok (fun _ => getSeqValue seqDbB "beta") 3 rfl
  simp [diff_sequence, r1, r2]
  rfl

/-- A complete sequence run with one Match and one Inconclusive verdict exits
with code 0. -/
theorem diff_all_sequences_example :
    diff_all_sequences seqDbA seqDbB = (Except.ok 0, [some true, none]) := by
  have hs : sortStrings (get_all_sequences seqDbA) = ["alpha", "beta"] := by
    decide
  rw [diff_all_sequences, hs]
  simp [diffSeqsGo, diff_sequence_alpha, diff_sequence_beta]

/-- A complete count-only table run with one Match and one Mismatch verdict
exits with code 1. -/
theorem diff_all_table_data_example :
    diff_all_table_data dOrchCount freshCatalog freshCatalog 1 =
      (Except.ok (some 1), [some true, some false]) := by
  rfl

/-- Witness for C4: the two concrete completed runs. -/
theorem C4_exit_codes_witness :
    ((0 = 1 ↔ some false ∈ ([some true, none] : List (Option Bool))) ∧
        (0 = 0 ↔ some false ∉ ([some true, none] : List (Option Bool)))) ∧
      ((1 = 1 ↔ some false ∈ ([some true, some false] : List (Option Bool))) ∧
        (1 = 0 ↔ some false ∉ ([some true, some false] : List (Option Bool)))) :=
  ⟨C4_exit_codes_from_mismatch_count.1 seqDbA seqDbB 0 [some true, none]
      diff_all_sequences_example,
    C4_exit_codes_from_mismatch_count.2 dOrchCount freshCatalog freshCatalog 1 1
      [some true, some false] diff_all_table_data_example⟩
